import Mathlib

/-!
Verification of the fast-learning chat backend: a shallow embedding of
`backend/utils/ai_engine.py`, `backend/utils/conversation_manager.py` and
`backend/app.py`, followed by theorems about the embedded operations.

Machine/state conventions of the embedding:
* Python strings are Lean `String`s; every string operation used by the code
  (`lower`, `strip`, `split`, `in`, slicing, `startswith`, `endswith`,
  `replace`) is re-implemented over `List Char` so that it matches Python's
  character-level semantics and evaluates inside the kernel.
* Wall-clock readings (`datetime.now().isoformat()`) are passed in as
  explicit `now : String` arguments; within one operation the several
  readings the code takes are abstracted as one value (no property here
  depends on their distinctness).
* The file system (one JSON file per session id) and the in-memory cache are
  association lists keyed by session id / file name; `json.dump` followed by
  `json.load` of a record round-trips, so a stored record is kept as the
  `Conversation` value itself, and a file that would fail to parse is
  represented as `none`.
* Fallible Python code is translated to `Except PyErr`; an uncaught
  exception in a handler is the `.error` outcome.
-/

/-! ## Python string primitives -/

/-- The characters Python's `str.strip()` removes and `\s` matches
(ASCII whitespace: space, tab, newline, carriage return, vertical tab,
form feed). -/
def isPyWs (c : Char) : Bool :=
  c == ' ' || c == '\t' || c == '\n' || c == '\r' || c == '\x0b' || c == '\x0c'

/-- Python `str.strip()`. -/
def pyStrip (s : String) : String :=
  String.mk (((s.data.dropWhile isPyWs).reverse.dropWhile isPyWs).reverse)

/-- Python `str.lower()` (ASCII case folding, which is all the code uses). -/
def pyLower (s : String) : String :=
  String.mk (s.data.map Char.toLower)

/-- Python `needle in haystack` on strings: substring test. -/
def pyContains (haystack needle : String) : Bool :=
  haystack.data.tails.any (fun t => needle.data.isPrefixOf t)

/-- Python `s.startswith(pre)`. -/
def pyStartsWith (s pre : String) : Bool :=
  pre.data.isPrefixOf s.data

/-- Python `s.endswith(suf)`. -/
def pyEndsWith (s suf : String) : Bool :=
  suf.data.isSuffixOf s.data

/-- Python slicing `s[:n]` (by characters). -/
def pyTake (n : Nat) (s : String) : String :=
  String.mk (s.data.take n)

/-- Python `s.replace(c, '')`: remove every occurrence of the character. -/
def pyRemoveChar (c : Char) (s : String) : String :=
  String.mk (s.data.filter (fun d => d ≠ c))

/-- One pass of Python's whitespace `str.split()`: words of a character
list, maximal runs of non-whitespace, empty runs dropped (`acc` holds the
reversed word currently being read). -/
def pyWordsAux : List Char → List Char → List (List Char)
  | [], acc => if acc = [] then [] else [acc.reverse]
  | c :: cs, acc =>
    if isPyWs c then
      if acc = [] then pyWordsAux cs [] else acc.reverse :: pyWordsAux cs []
    else pyWordsAux cs (c :: acc)

/-- Python `str.split()` with no argument: split on whitespace runs,
dropping empty fields. -/
def pySplit (s : String) : List String :=
  (pyWordsAux s.data []).map String.mk

/-- Python `history[-n:]`: the last `n` elements (all of them when the list
is shorter). -/
def lastSlice (n : Nat) (l : List α) : List α :=
  l.drop (l.length - n)

/-- `"=" * 50` and similar Python string repetition. -/
def pyRepeat (c : Char) (n : Nat) : String :=
  String.mk (List.replicate n c)

/-! ## Association lists for the cache and the storage directory -/

/-- Dictionary / file lookup. -/
def lookupA (k : String) : List (String × α) → Option α
  | [] => none
  | (k', v) :: rest => if k = k' then some v else lookupA k rest

/-- Dictionary write / file overwrite: replace the binding of `k`, or append
a new one. -/
def setA (k : String) (v : α) : List (String × α) → List (String × α)
  | [] => [(k, v)]
  | (k', v') :: rest => if k = k' then (k, v) :: rest else (k', v') :: setA k v rest

/-- Dictionary deletion / file removal (no error when absent). -/
def removeA (k : String) : List (String × α) → List (String × α)
  | [] => []
  | (k', v') :: rest => if k = k' then removeA k rest else (k', v') :: removeA k rest

/-! ## Data model (`conversation_manager.py`) -/

/-- A turn of a conversation, as `app.py` builds the message dicts: `role`,
`content`, `timestamp`, and for assistant turns also `model`. -/
structure Message where
  role : String
  content : String
  timestamp : String
  model : Option String := none
deriving DecidableEq, Repr

/-- A conversation record, as `ConversationManager.get_conversation`
creates it. The open `metadata` mapping starts empty and nothing in the
code ever writes it. -/
structure Conversation where
  session_id : String
  created_at : String
  updated_at : String
  messages : List Message
  title : String
  metadata : List (String × String)
deriving DecidableEq, Repr

/-- The `ConversationManager`'s state: the in-memory cache
`active_conversations` and the storage directory of JSON files, keyed by
session id (the file `<sid>.json`). -/
structure ManagerState where
  active_conversations : List (String × Conversation)
  storage : List (String × Conversation)
deriving DecidableEq, Repr

/-- A manager over an empty directory, as `ConversationManager.__init__`
builds it. -/
def ManagerState.empty : ManagerState := ⟨[], []⟩

/-- The fresh record `get_conversation` creates for an unseen session id. -/
def new_conversation (sid now : String) : Conversation :=
  { session_id := sid
    created_at := now
    updated_at := now
    messages := []
    title := "New Conversation"
    metadata := [] }

/-- `ConversationManager.get_conversation`: cache hit, else load from the
file system into the cache, else create a new conversation, cache it and
persist it (get-or-create). -/
def ConversationManager.get_conversation (mgr : ManagerState) (sid now : String) :
    Conversation × ManagerState :=
  match lookupA sid mgr.active_conversations with
  | some c => (c, mgr)
  | none =>
    match lookupA sid mgr.storage with
    | some c => (c, { mgr with active_conversations := setA sid c mgr.active_conversations })
    | none =>
      let c := new_conversation sid now
      (c, { active_conversations := setA sid c mgr.active_conversations
            storage := setA sid c mgr.storage })

/-- The title `add_message` derives from a first user message: the leading
50 characters, with an ellipsis when the content is longer than 50. -/
def title_of (content : String) : String :=
  pyTake 50 content ++ (if content.length > 50 then "..." else "")

/-- The in-place mutation `add_message` performs on the conversation dict:
append the message, refresh `updated_at`, and derive the title when the
appended message is the first one and its role is `user`. -/
def apply_add (c : Conversation) (m : Message) (now : String) : Conversation :=
  let msgs := c.messages ++ [m]
  { c with
    messages := msgs
    updated_at := now
    title := if msgs.length = 1 ∧ m.role = "user" then title_of m.content else c.title }

/-- `ConversationManager.add_message`: get-or-create the conversation,
mutate it, write it back to the cache and through to storage. -/
def ConversationManager.add_message (mgr : ManagerState) (sid : String) (m : Message)
    (now : String) : ManagerState :=
  let r := ConversationManager.get_conversation mgr sid now
  let c := apply_add r.1 m now
  { active_conversations := setA sid c r.2.active_conversations
    storage := setA sid c r.2.storage }

/-- `ConversationManager.delete_conversation`: drop the cache entry and the
file; both steps are no-ops when absent. -/
def ConversationManager.delete_conversation (mgr : ManagerState) (sid : String) : ManagerState :=
  { active_conversations := removeA sid mgr.active_conversations
    storage := removeA sid mgr.storage }

/-- `ConversationManager.clear_all`. -/
def ConversationManager.clear_all (_mgr : ManagerState) : ManagerState :=
  { active_conversations := [], storage := [] }

/-- The metadata projection `get_all_conversations` returns per record. -/
structure ConvMeta where
  session_id : String
  title : String
  created_at : String
  updated_at : String
  message_count : Nat
deriving DecidableEq, Repr

def meta_of (c : Conversation) : ConvMeta :=
  { session_id := c.session_id
    title := c.title
    created_at := c.created_at
    updated_at := c.updated_at
    message_count := c.messages.length }

/-- Sorting key relation of `conversations.sort(key=..., reverse=True)`:
most recent `updated_at` first (ISO timestamps compare as strings). -/
@[reducible] def metaDesc (a b : ConvMeta) : Prop := b.updated_at ≤ a.updated_at

instance : DecidableRel metaDesc := fun _ _ => String.decidableLE _ _

instance : IsTotal ConvMeta metaDesc :=
  ⟨fun a b => le_total b.updated_at a.updated_at⟩

instance : IsTrans ConvMeta metaDesc :=
  ⟨fun _ _ _ hab hbc => le_trans hbc hab⟩

/-- `ConversationManager.get_all_conversations`, reading the storage
directory directly: every `.json` file that parses contributes one metadata
entry (`json.load` or a missing key raises inside the `try`, and the record
is skipped); the collected list is then sorted by `updated_at`, most recent
first.  The directory listing is a list of file names paired with the parse
outcome of the file's contents (`none` = the record fails to parse). -/
def ConversationManager.get_all_conversations
    (dir : List (String × Option Conversation)) : List ConvMeta :=
  let collected := dir.filterMap fun e =>
    if pyEndsWith e.1 ".json" then e.2.map meta_of else none
  List.insertionSort metaDesc collected

/-- The directory listing a manager's storage corresponds to: every record
the manager wrote is the parseable file `<sid>.json`. -/
def ManagerState.dirListing (mgr : ManagerState) : List (String × Option Conversation) :=
  mgr.storage.map fun e => (e.1 ++ ".json", some e.2)

/-- Minimal JSON string escaping; `json.dumps`'s exact spacing and escape
set are not reproduced — no property stated here depends on the rendered
JSON text. -/
def jsonEscape (s : String) : String :=
  String.mk (s.data.flatMap fun c =>
    if c = '"' then ['\\', '"']
    else if c = '\\' then ['\\', '\\']
    else if c = '\n' then ['\\', 'n']
    else [c])

def jsonStr (s : String) : String := "\"" ++ jsonEscape s ++ "\""

def json_of_message (m : Message) : String :=
  "\x7b" ++ jsonStr "role" ++ ": " ++ jsonStr m.role ++ ", " ++
    jsonStr "content" ++ ": " ++ jsonStr m.content ++ ", " ++
    jsonStr "timestamp" ++ ": " ++ jsonStr m.timestamp ++
    (match m.model with
     | some md => ", " ++ jsonStr "model" ++ ": " ++ jsonStr md
     | none => "") ++ "\x7d"

def json_of_conversation (c : Conversation) : String :=
  "\x7b" ++ jsonStr "session_id" ++ ": " ++ jsonStr c.session_id ++ ", " ++
    jsonStr "created_at" ++ ": " ++ jsonStr c.created_at ++ ", " ++
    jsonStr "updated_at" ++ ": " ++ jsonStr c.updated_at ++ ", " ++
    jsonStr "messages" ++ ": [" ++
    String.intercalate ", " (c.messages.map json_of_message) ++ "], " ++
    jsonStr "title" ++ ": " ++ jsonStr c.title ++ ", " ++
    jsonStr "metadata" ++ ": \x7b\x7d" ++ "\x7d"

/-- The `text` rendering of `export_conversation`. -/
def export_text (c : Conversation) : String :=
  "Conversation: " ++ c.title ++ "\n" ++ "Created: " ++ c.created_at ++ "\n" ++
    pyRepeat '=' 50 ++ "\n\n" ++
    String.join (c.messages.map fun m =>
      (if m.role = "user" then "You" else "AI") ++ ": " ++ m.content ++ "\n\n")

/-- The `markdown` rendering of `export_conversation`. -/
def export_markdown (c : Conversation) : String :=
  "# " ++ c.title ++ "\n\n" ++ "**Created:** " ++ c.created_at ++ "\n\n" ++ "---\n\n" ++
    String.join (c.messages.map fun m =>
      (if m.role = "user" then "**You**" else "**AI**") ++ ": " ++ m.content ++ "\n\n")

/-- `ConversationManager.export_conversation`: fetches the conversation
through get-or-create `get_conversation`, then renders it in the requested
format (anything other than `text` / `markdown` renders as JSON). -/
def ConversationManager.export_conversation (mgr : ManagerState) (sid fmt now : String) :
    String × ManagerState :=
  let r := ConversationManager.get_conversation mgr sid now
  (if fmt = "json" then json_of_conversation r.1
   else if fmt = "text" then export_text r.1
   else if fmt = "markdown" then export_markdown r.1
   else json_of_conversation r.1, r.2)

/-! ## `ai_engine.py`: arithmetic detection and safe evaluation -/

/-- The character allow-list of `_calculate_math`'s extraction regex
`[\d\s+\-*/().]` (digits are matched as ASCII here; they are the only
digits Python's own numeric literals accept). -/
def isAllowedChar (c : Char) : Bool :=
  c.isDigit || isPyWs c || c == '+' || c == '-' || c == '*' || c == '/' ||
    c == '(' || c == ')' || c == '.'

/-- The first maximal run of allow-listed characters, as
`re.search(r'([\d\s+\-*/().]+)', expression)` finds it; `none` when no
character of the text is allow-listed (the regex does not match). -/
def firstRun : List Char → Option (List Char)
  | [] => none
  | c :: cs =>
    if isAllowedChar c then some ((c :: cs).takeWhile isAllowedChar) else firstRun cs

/-- The expression text `_calculate_math` hands to `eval`: the message with
every `=` removed and stripped; narrowed to the first allow-listed run
(stripped) when the regex matches, and left as-is when it does not. -/
def extract_expression (message : String) : String :=
  let e := pyStrip (pyRemoveChar '=' message)
  match firstRun e.data with
  | some run => pyStrip (String.mk run)
  | none => e

def isOpChar (c : Char) : Bool :=
  c == '+' || c == '-' || c == '*' || c == '/'

/-- A match of `\d+\s*[+\-*/]\s*\d+` starting at this position: one or more
digits, optional whitespace, an operator, optional whitespace, a digit. -/
def digitOpDigitAt : List Char → Bool
  | [] => false
  | c :: rest =>
    if c.isDigit then
      match (rest.dropWhile Char.isDigit).dropWhile isPyWs with
      | o :: tail =>
        if isOpChar o then
          match tail.dropWhile isPyWs with
          | d :: _ => d.isDigit
          | [] => false
        else false
      | [] => false
    else false

/-- `re.search(r'\d+\s*[+\-*/]\s*\d+', message)`: a match at some position. -/
def hasDigitOpDigit (s : String) : Bool :=
  s.data.tails.any digitOpDigitAt

def math_words : List String :=
  ["plus", "minus", "times", "divided", "multiply", "add", "subtract"]

/-- `AIEngine._is_math_expression`: a digits-operator-digits pattern
anywhere, or one of the arithmetic keywords as a substring of the lowered
message. -/
def AIEngine.is_math_expression (message : String) : Bool :=
  hasDigitOpDigit message ||
    math_words.any (fun w => pyContains (pyLower message) w)

/-- A Python numeric value: `int` or `float`.  Floats are kept as exact
rationals (see `pyEval` for the boundary of that idealization). -/
inductive PyNum
  | int (i : ℤ)
  | float (q : ℚ)
deriving DecidableEq, Repr

/-- Where an arithmetic parse/evaluation of an `eval` text stops short of
a numeric value.  The first three name texts this model leaves undecided
(Python may return a non-numeric value or raise there); the last three are
certain raises within the numeric fragment:
* `outsideCharset` — a character outside `[\d\s+\-*/().]`: the text may be
  a literal Python evaluates successfully (`eval("'add'", {"__builtins__":
  \x7b\x7d})` is the string `'add'`; a lambda is a function) or may raise (a
  bare identifier is a `NameError` under the empty builtins);
* `dotRun` — a `.` that is part of no numeric literal: could be the valid
  `...` (Ellipsis) or a `SyntaxError`;
* `fracPower` — `**` with a non-integer exponent: Python computes a float
  or complex power, outside the exact fragment modelled here;
* `illFormed` — a certainly-raising form over the numeric tokens: an empty
  or whitespace-only text, literal juxtaposition, an unbalanced
  parenthesis or trailing operator (`SyntaxError`), or a call of a number
  (`TypeError`);
* `zeroDivision` — a certain `ZeroDivisionError`. -/
inductive EvalStop
  | outsideCharset
  | dotRun
  | fracPower
  | illFormed
  | zeroDivision
deriving DecidableEq, Repr

def PyNum.toQ : PyNum → ℚ
  | .int i => (i : ℚ)
  | .float q => q

def PyNum.add : PyNum → PyNum → PyNum
  | .int x, .int y => .int (x + y)
  | a, b => .float (a.toQ + b.toQ)

def PyNum.sub : PyNum → PyNum → PyNum
  | .int x, .int y => .int (x - y)
  | a, b => .float (a.toQ - b.toQ)

def PyNum.mul : PyNum → PyNum → PyNum
  | .int x, .int y => .int (x * y)
  | a, b => .float (a.toQ * b.toQ)

def PyNum.neg : PyNum → PyNum
  | .int x => .int (-x)
  | .float q => .float (-q)

/-- Python `/`: true division, always a float, `ZeroDivisionError` on a
zero divisor. -/
def PyNum.div (a b : PyNum) : Except EvalStop PyNum :=
  if b.toQ = 0 then .error .zeroDivision else .ok (.float (a.toQ / b.toQ))

/-- Python `//`: floor division; `int` only when both operands are. -/
def PyNum.fdiv (a b : PyNum) : Except EvalStop PyNum :=
  if b.toQ = 0 then .error .zeroDivision
  else match a, b with
    | .int x, .int y => .ok (.int (Int.fdiv x y))
    | _, _ => .ok (.float (⌊a.toQ / b.toQ⌋ : ℤ))

/-- Python `**` with an integer exponent. -/
def PyNum.powI (a : PyNum) (e : ℤ) : Except EvalStop PyNum :=
  if 0 ≤ e then
    match a with
    | .int x => .ok (.int (x ^ e.toNat))
    | .float q => .ok (.float (q ^ e.toNat))
  else if a.toQ = 0 then .error .zeroDivision
  else .ok (.float (a.toQ ^ e))

/-- Python `**`: an integer-valued float exponent still makes the result a
float (`2**3.0 = 8.0`); a fractional exponent leaves the fragment. -/
def PyNum.pow (a b : PyNum) : Except EvalStop PyNum :=
  match b with
  | .int e => a.powI e
  | .float q =>
    if q.den = 1 then
      match a.powI q.num with
      | .ok r => .ok (.float r.toQ)
      | .error e => .error e
    else .error .fracPower

/-- Tokens of the arithmetic grammar reachable through the charset
`[\d\s+\-*/().]`: numbers, `+ - * / ** //` and parentheses. -/
inductive Tok
  | num (n : PyNum)
  | plus | minus | star | slash | dstar | dslash | lparen | rparen
deriving DecidableEq, Repr

def digitsToNat (l : List Char) : Nat :=
  l.foldl (fun acc c => 10 * acc + (c.toNat - '0'.toNat)) 0

/-- Lex one numeric literal (`12`, `12.`, `12.5`, `.5`); `none` when the
text at this position is no literal (a lone `.`). -/
def lexNum (l : List Char) : Option (PyNum × List Char) :=
  let intPart := l.takeWhile Char.isDigit
  let rest := l.dropWhile Char.isDigit
  match rest with
  | '.' :: rest2 =>
    let fracPart := rest2.takeWhile Char.isDigit
    let rest3 := rest2.dropWhile Char.isDigit
    if intPart = [] ∧ fracPart = [] then none
    else some (.float ((digitsToNat intPart : ℚ) +
      (digitsToNat fracPart : ℚ) / (10 ^ fracPart.length : ℚ)), rest3)
  | _ => if intPart = [] then none else some (.int (digitsToNat intPart), rest)

/-- Tokenizer (fuelled; the fuel `length + 1` always suffices since every
step consumes at least one character). -/
def lexAux : Nat → List Char → Except EvalStop (List Tok)
  | 0, _ => .error .illFormed
  | _, [] => .ok []
  | fuel + 1, c :: cs =>
    if isPyWs c then lexAux fuel cs
    else if c == '+' then (lexAux fuel cs).map (Tok.plus :: ·)
    else if c == '-' then (lexAux fuel cs).map (Tok.minus :: ·)
    else if c == '*' then
      match cs with
      | '*' :: cs2 => (lexAux fuel cs2).map (Tok.dstar :: ·)
      | _ => (lexAux fuel cs).map (Tok.star :: ·)
    else if c == '/' then
      match cs with
      | '/' :: cs2 => (lexAux fuel cs2).map (Tok.dslash :: ·)
      | _ => (lexAux fuel cs).map (Tok.slash :: ·)
    else if c == '(' then (lexAux fuel cs).map (Tok.lparen :: ·)
    else if c == ')' then (lexAux fuel cs).map (Tok.rparen :: ·)
    else if c.isDigit || c == '.' then
      match lexNum (c :: cs) with
      | some (n, rest) => (lexAux fuel rest).map (Tok.num n :: ·)
      | none => .error .dotRun
    else .error .outsideCharset

mutual

/-- `expr := term (('+'|'-') term)*`. -/
def parseE : Nat → List Tok → Except EvalStop (PyNum × List Tok)
  | 0, _ => .error .illFormed
  | fuel + 1, toks => do
    let (t, rest) ← parseT fuel toks
    parseERest fuel t rest

def parseERest : Nat → PyNum → List Tok → Except EvalStop (PyNum × List Tok)
  | 0, _, _ => .error .illFormed
  | fuel + 1, acc, toks =>
    match toks with
    | .plus :: rest => do
      let (t, rest') ← parseT fuel rest
      parseERest fuel (acc.add t) rest'
    | .minus :: rest => do
      let (t, rest') ← parseT fuel rest
      parseERest fuel (acc.sub t) rest'
    | _ => .ok (acc, toks)

/-- `term := factor (('*'|'/'|'//') factor)*`. -/
def parseT : Nat → List Tok → Except EvalStop (PyNum × List Tok)
  | 0, _ => .error .illFormed
  | fuel + 1, toks => do
    let (f, rest) ← parseF fuel toks
    parseTRest fuel f rest

def parseTRest : Nat → PyNum → List Tok → Except EvalStop (PyNum × List Tok)
  | 0, _, _ => .error .illFormed
  | fuel + 1, acc, toks =>
    match toks with
    | .star :: rest => do
      let (f, rest') ← parseF fuel rest
      parseTRest fuel (acc.mul f) rest'
    | .slash :: rest => do
      let (f, rest') ← parseF fuel rest
      let v ← acc.div f
      parseTRest fuel v rest'
    | .dslash :: rest => do
      let (f, rest') ← parseF fuel rest
      let v ← acc.fdiv f
      parseTRest fuel v rest'
    | _ => .ok (acc, toks)

/-- `factor := ('+'|'-') factor | power` (Python's unary operators). -/
def parseF : Nat → List Tok → Except EvalStop (PyNum × List Tok)
  | 0, _ => .error .illFormed
  | fuel + 1, toks =>
    match toks with
    | .plus :: rest => parseF fuel rest
    | .minus :: rest => do
      let (v, r) ← parseF fuel rest
      .ok (v.neg, r)
    | _ => parseP fuel toks

/-- `power := primary ['**' factor]` (the exponent is a unary expression,
so `2**-1` parses and `-2**2 = -(2**2)`). -/
def parseP : Nat → List Tok → Except EvalStop (PyNum × List Tok)
  | 0, _ => .error .illFormed
  | fuel + 1, toks => do
    let (b, rest) ← parsePrim fuel toks
    match rest with
    | .dstar :: rest2 => do
      let (e, rest3) ← parseF fuel rest2
      let v ← b.pow e
      .ok (v, rest3)
    | _ => .ok (b, rest)

def parsePrim : Nat → List Tok → Except EvalStop (PyNum × List Tok)
  | 0, _ => .error .illFormed
  | _ + 1, .num n :: rest => .ok (n, rest)
  | fuel + 1, .lparen :: rest => do
    let (v, rest2) ← parseE fuel rest
    match rest2 with
    | .rparen :: rest3 => .ok (v, rest3)
    | _ => .error .illFormed
  | _ + 1, _ => .error .illFormed

end

/-- Whether a token stream contains an adjacent `( )` — the empty tuple,
which makes expressions such as `()` or `()+()` valid non-numeric Python. -/
def has_empty_parens : List Tok → Bool
  | .lparen :: .rparen :: _ => true
  | _ :: rest => has_empty_parens rest
  | [] => false

/-- What one `eval` call does, as far as this model decides it. -/
inductive EvalOutcome
  | val (n : PyNum)
  | raises (e : EvalStop)
  | outsideFragment
deriving DecidableEq, Repr

/-- `eval(expression, {"__builtins__": {}})`, decided on the numeric
fragment and explicitly undecided outside it:
* `.val n` — the text is an arithmetic expression over numeric literals
  (`+ - * / // **`, parentheses) and Python evaluates it to exactly this
  number, with floats idealized as exact rationals (binary rounding,
  overflow to infinity and `OverflowError` on huge float powers are not
  modelled; no property below evaluates such a text);
* `.raises _` — Python certainly raises (see `EvalStop`);
* `.outsideFragment` — the text leaves the numeric fragment: a character
  outside the allow-list, a `...`-like dot run, an empty-tuple `()`, or a
  fractional power.  Python may then return a non-numeric value — e.g.
  `eval("'add'")` succeeds with the string `'add'` — or raise, and this
  model does not decide which. -/
def pyEval (s : String) : EvalOutcome :=
  match lexAux (s.length + 1) s.data with
  | .error .outsideCharset => .outsideFragment
  | .error .dotRun => .outsideFragment
  | .error e => .raises e
  | .ok [] => .raises .illFormed
  | .ok toks =>
    if has_empty_parens toks then .outsideFragment
    else
      match parseE (4 * (toks.length + 1)) toks with
      | .ok (v, []) => .val v
      | .ok (_, _ :: _) => .raises .illFormed
      | .error .fracPower => .outsideFragment
      | .error e => .raises e

/-- Decimal rendering of a float with `k` fractional digits. -/
def renderFixed (q : ℚ) (k : Nat) : String :=
  let sign := if q < 0 then "-" else ""
  let scaled := (|q| * (10 ^ k : ℚ)).num.toNat
  let digits := toString scaled
  let digits := if digits.length ≤ k then pyRepeat '0' (k + 1 - digits.length) ++ digits else digits
  sign ++ pyTake (digits.length - k) digits ++ "." ++
    String.mk (digits.data.drop (digits.length - k))

/-- `str(result)`: exact for ints; a float is printed with its shortest
exact decimal expansion when one of at most 17 digits exists (Python's
shortest round-trip repr agrees on such values), and from its rational
value otherwise. -/
def renderPyNum : PyNum → String
  | .int i => toString i
  | .float q =>
    match (List.range 17).find? (fun k => (q * (10 ^ (k + 1) : ℚ)).den = 1) with
    | some k => renderFixed q (k + 1)
    | none => toString q.num ++ "/" ++ toString q.den

/-- `AIEngine._calculate_math`: strip `=`, pull the arithmetic part out of
the message, `eval` it inside a `try`; the formatted result on a numeric
value, the explanatory "I can help with math" reply when evaluation raises.
Boundary: on an `.outsideFragment` text — where Python's `eval` may return
a non-numeric value (a string or tuple literal, a lambda, `()`, `...`, a
float power) instead of raising — the real code would take the success
branch with that value rendered; this model answers the explanatory reply
there, and no property below evaluates `calculate_math` on such a
message. -/
def AIEngine.calculate_math (message : String) : String :=
  let expression := extract_expression message
  match pyEval expression with
  | .val result =>
    "**Math Calculation** 🧮\n\n**Question:** " ++ message ++ "\n\n**Answer:** " ++
      renderPyNum result ++ "\n\n**Calculation:**\n```\n" ++ expression ++ " = " ++
      renderPyNum result ++
      "\n```\n\nWould you like me to explain how this works, or try another calculation?"
  | _ =>
    "I see you\x27re asking about: **" ++ message ++
      "**\n\nI can help with math! Try asking:\n• \"What is 5 + 3?\"\n• \"Calculate 12 * 8\"\n• \"Solve 100 / 4\"\n• \"What\x27s 2 + 2 * 3?\"\n\nOr ask me to explain math concepts like algebra, calculus, geometry, and more!"

/-! ## `ai_engine.py`: the rule-based knowledge tier -/

/-- A Python exception escaping a generation call. -/
inductive PyError
  | nameError (ident : String)
deriving DecidableEq, Repr

/-- `str(e)` for the exceptions modelled here. -/
def pyErrorMessage : PyError → String
  | .nameError n => "name \x27" ++ n ++ "\x27 is not defined"

def greetings_list : List String :=
  ["hello", "hi", "hey", "good morning", "good afternoon", "good evening"]

def how_are_you_words : List String := ["how are you", "how do you do", "whats up"]

def who_are_you_words : List String := ["your name", "who are you", "what are you"]

def greeting_response : String :=
  "Hello! I\x27m **Fast Learning AI** - your universal knowledge companion! 🌟\n\nI can answer questions about **ANYTHING**: Science, Technology, Math, History, Geography, Programming, Arts, Sports, Health, Business, and so much more!\n\nWhat would you like to learn about today?"

def how_are_you_response : String :=
  "I\x27m functioning excellently, thank you! I\x27m ready to help you learn about ANY topic in the world. Science? History? Programming? Sports? Just ask!"

def who_are_you_response : String :=
  "I\x27m **Fast Learning AI** - your intelligent companion for learning ANYTHING!\n\nI provide detailed explanations on:\n• Science (physics, chemistry, biology)\n• Technology (programming, AI, web dev)\n• Mathematics (algebra, calculus, statistics)\n• History & Geography\n• Arts & Music\n• Sports & Health\n• Business & Economics\n• Philosophy & Literature\n• And virtually any other topic!\n\nHow can I assist your learning journey today?"

/-- The topic table of `_answer_universal_question`, in the dict's insertion
order; detection walks it in order and stops at the first topic with a
keyword occurring in the lowered message. -/
def topics : List (String × List String) := [
  ("india", ["india", "indian", "delhi", "mumbai", "bangalore", "taj mahal", "gandhi", "bollywood"]),
  ("usa", ["usa", "america", "united states", "washington", "new york", "california"]),
  ("china", ["china", "chinese", "beijing", "shanghai", "great wall"]),
  ("japan", ["japan", "japanese", "tokyo", "kyoto", "anime", "sushi"]),
  ("europe", ["europe", "european", "paris", "london", "berlin", "rome"]),
  ("programming", ["python", "code", "programming", "javascript", "java", "function", "variable", "loop", "class", "html", "css"]),
  ("math", ["math", "calculate", "equation", "algebra", "calculus", "geometry", "statistics", "probability", "number", "solve"]),
  ("physics", ["physics", "force", "energy", "gravity", "quantum", "relativity", "motion", "speed", "mass", "acceleration"]),
  ("chemistry", ["chemistry", "chemical", "atom", "molecule", "reaction", "element", "compound", "periodic"]),
  ("biology", ["biology", "cell", "dna", "gene", "organism", "evolution", "protein", "photosynthesis"]),
  ("history", ["history", "war", "revolution", "ancient", "medieval", "historical", "empire", "civilization"]),
  ("geography", ["geography", "country", "continent", "ocean", "mountain", "climate", "capital", "earth"]),
  ("space", ["space", "astronomy", "planet", "star", "galaxy", "universe", "solar system", "astronaut"]),
  ("ai", ["artificial intelligence", "machine learning", "neural network", "deep learning", "ai", "ml"]),
  ("sports", ["sport", "football", "basketball", "soccer", "cricket", "tennis", "olympics", "athlete"]),
  ("music", ["music", "song", "instrument", "melody", "composer", "guitar", "piano", "band"]),
  ("health", ["health", "medicine", "disease", "doctor", "treatment", "symptoms", "fitness", "nutrition"]),
  ("business", ["business", "economics", "market", "finance", "money", "investment", "stock", "trade"])]

def detect_topic (message_lower : String) : Option String :=
  (topics.find? (fun t => t.2.any (fun kw => pyContains message_lower kw))).map (·.1)

def india_response (message : String) : String :=
  "**India** 🇮🇳 - Incredible India!\n\nYou asked: \"" ++ pyTake 80 message ++ "...\"\n\n**Basic Facts:**\n- **Capital**: New Delhi\n- **Population**: 1.4+ billion (world\x27s most populous)\n- **Official Languages**: Hindi & English (22 official languages total)\n- **Currency**: Indian Rupee (₹)\n- **Area**: 3.3 million km² (7th largest country)\n\n**Rich History:**\n- One of the world\x27s oldest civilizations (5000+ years)\n- Home to 4 major religions: Hinduism, Buddhism, Jainism, Sikhism\n- Ancient achievements: Mathematics (zero, decimal), Ayurveda, Yoga\n- Independence: August 15, 1947 (from British rule)\n- Led by Mahatma Gandhi\x27s non-violent movement\n\n**Culture & Diversity:**\n- **Festivals**: Diwali (Festival of Lights), Holi (Colors), Eid\n- **Cuisine**: Curry, Biryani, Dosa, Samosa, Chai\n- **Clothing**: Saree, Kurta, Traditional & Modern mix\n- **Bollywood**: Largest film industry by movies produced\n- **Classical Arts**: Bharatanatyam, Kathak dance, Classical music\n\n**Famous Landmarks:**\n- **Taj Mahal**: UNESCO World Heritage, one of 7 Wonders\n- **Red Fort**: Historical fort in Delhi\n- **Gateway of India**: Mumbai\x27s iconic monument\n- **Temples**: Angkor Wat, Golden Temple, Varanasi\n\n**Economy & Technology:**\n- **IT Hub**: Bangalore - Silicon Valley of India\n- **Space**: ISRO - Mars Mission, Moon landings\n- **Startups**: Fastest growing startup ecosystem\n- **Industries**: IT, Pharmaceuticals, Manufacturing\n\n**Famous Indians:**\n- Mahatma Gandhi - Independence leader\n- APJ Abdul Kalam - Missile Man, President\n- Mother Teresa - Nobel Peace Prize\n- Sachin Tendulkar - Cricket legend\n- Sundar Pichai - Google CEO\n\n**Modern India:**\n- World\x27s largest democracy\n- Fastest growing major economy\n- Tech powerhouse (IT services, software)\n- Young population - average age 28\n\nIndia is a land of incredible diversity, rich heritage, and rapid modernization! 🌟"

def math_topic_response (message : String) : String :=
  "**Mathematics** - Let me help you understand!\n\nYou asked: \"" ++ pyTake 80 message ++ "...\"\n\n**Key Math Areas:**\n\n**Algebra:**\n- Solving equations: 2x + 5 = 15 → x = 5\n- Variables represent unknown values\n- Simplify expressions\n\n**Calculus:**\n- **Derivatives**: Rate of change\n- **Integrals**: Area under curves\n- Used in physics, engineering\n\n**Geometry:**\n- Shapes, angles, areas\n- Circle area: πr²\n- Triangle area: ½ × base × height\n\n**Statistics:**\n- Mean: Average of numbers\n- Median: Middle value\n- Probability: Chance of events\n\n**Quick Example:**\nTo find the area of a circle with radius 5:\nArea = π × 5² = 3.14 × 25 = 78.5\n\nWhat specific math concept would you like explained?"

def physics_response (message : String) : String :=
  "**Physics** - The Science of How Things Work!\n\nYou asked: \"" ++ pyTake 80 message ++ "...\"\n\n**Fundamental Concepts:**\n\n**Newton\x27s Laws:**\n1. Objects stay at rest/motion unless acted upon\n2. F = ma (Force = mass × acceleration)\n3. Every action has equal opposite reaction\n\n**Energy:**\n- Kinetic Energy: Energy of motion (½mv²)\n- Potential Energy: Stored energy (mgh)\n- Energy is conserved (never created/destroyed)\n\n**Gravity:**\n- Pulls objects toward each other\n- On Earth: 9.8 m/s² acceleration\n- Keeps planets orbiting the Sun\n\n**Electricity:**\n- Ohm\x27s Law: V = IR\n- Current flows through circuits\n- Powers our modern world\n\n**Relativity (Einstein):**\n- E = mc² (energy-mass equivalence)\n- Time slows at high speeds\n- Space and time are connected\n\nPhysics explains everything from falling apples to black holes!"

def chemistry_response (message : String) : String :=
  "**Chemistry** - The Science of Matter!\n\nYou asked: \"" ++ pyTake 80 message ++ "...\"\n\n**Core Concepts:**\n\n**Atoms & Elements:**\n- Everything is made of atoms\n- 118 elements in periodic table\n- Atoms have protons, neutrons, electrons\n\n**Chemical Reactions:**\nExample: 2H₂ + O₂ → 2H₂O\n(Hydrogen + Oxygen = Water)\n\n**States of Matter:**\n- Solid: Fixed shape & volume\n- Liquid: Fixed volume, flows\n- Gas: Fills container\n- Plasma: Ionized gas (in stars)\n\n**Bonds:**\n- Ionic: Transfer electrons\n- Covalent: Share electrons\n- Creates all molecules\n\n**pH Scale:**\n- 0-6: Acidic (lemon, vinegar)\n- 7: Neutral (water)\n- 8-14: Basic (soap, bleach)\n\nChemistry explains how everything around us works at the molecular level!"

def biology_response (message : String) : String :=
  "**Biology** - The Science of Life!\n\nYou asked: \"" ++ pyTake 80 message ++ "...\"\n\n**Living Things:**\n\n**Cells:**\n- Basic unit of life\n- Types: Plant cells, animal cells, bacteria\n- Contain DNA with genetic information\n\n**DNA & Genetics:**\n- DNA stores genetic code\n- Genes pass traits from parents to offspring\n- Made of A, T, G, C molecules\n\n**Evolution:**\n- Species change over time\n- Natural selection: Survival of fittest\n- All life shares common ancestors\n\n**Ecosystems:**\n- Living things interact with environment\n- Food chain: Plants → Herbivores → Carnivores\n- Energy flows from Sun through living things\n\n**Human Body:**\n- Heart pumps blood\n- Lungs exchange oxygen\n- Brain controls everything\n- 37 trillion cells working together\n\nBiology helps us understand all living things!"

def history_response (message : String) : String :=
  "**History** - Learning from the Past!\n\nYou asked: \"" ++ pyTake 80 message ++ "...\"\n\n**Major Historical Periods:**\n\n**Ancient Civilizations (3000 BCE - 500 CE):**\n- Egypt: Pyramids, pharaohs\n- Greece: Democracy, philosophy\n- Rome: Empire, roads, law\n\n**Middle Ages (500 - 1500):**\n- Feudalism in Europe\n- Islamic Golden Age\n- Crusades and trade\n\n**Modern Era (1500 - Present):**\n- Renaissance: Art & science revival\n- Industrial Revolution: Factories, cities\n- World Wars: Major global conflicts\n- Digital Age: Internet, computers\n\n**Important Events:**\n- 1776: American Independence\n- 1789: French Revolution\n- 1914-1918: World War I\n- 1939-1945: World War II\n- 1969: Moon Landing\n\nHistory helps us understand where we came from and where we\x27re going!"

def geography_response (message : String) : String :=
  "**Geography** - Understanding Our World!\n\nYou asked: \"" ++ pyTake 80 message ++ "...\"\n\n**Continents (7):**\n1. Asia - Largest, 4.6 billion people\n2. Africa - Cradle of humanity\n3. North America - USA, Canada, Mexico\n4. South America - Amazon rainforest\n5. Europe - Rich history\n6. Australia - Unique wildlife\n7. Antarctica - Frozen continent\n\n**Oceans (5):**\n- Pacific: Largest ocean\n- Atlantic: Between Americas & Europe/Africa\n- Indian: Third largest\n- Southern: Around Antarctica\n- Arctic: Smallest, frozen\n\n**Major Features:**\n- Highest Mountain: Mt. Everest (29,032 ft)\n- Longest River: Nile (4,135 miles)\n- Largest Desert: Sahara\n- Deepest Ocean: Mariana Trench (36,000 ft)\n\n**Climate Zones:**\n- Tropical: Hot, near equator\n- Temperate: Moderate seasons\n- Polar: Very cold, ice\n\nGeography shows us the amazing diversity of our planet!"

def space_response (message : String) : String :=
  "**Space & Astronomy** - Exploring the Universe!\n\nYou asked: \"" ++ pyTake 80 message ++ "...\"\n\n**Our Solar System:**\n- Sun: Star at center, provides light/heat\n- 8 Planets: Mercury, Venus, Earth, Mars, Jupiter, Saturn, Uranus, Neptune\n- Moon: Earth\x27s satellite\n- Asteroids & Comets: Rocky/icy objects\n\n**Beyond Solar System:**\n- Stars: Massive balls of hot gas\n- Galaxies: Billions of stars grouped together\n- Milky Way: Our galaxy, 200-400 billion stars\n- Universe: 200+ billion galaxies!\n\n**Amazing Facts:**\n- Light from Sun takes 8 minutes to reach Earth\n- Space is completely silent (no air for sound)\n- Black holes: Gravity so strong nothing escapes\n- Universe is 13.8 billion years old\n\n**Space Exploration:**\n- 1969: Humans land on Moon\n- Mars Rovers exploring red planet\n- International Space Station orbiting Earth\n- James Webb Telescope seeing deep space\n\nSpace shows us how vast and amazing the universe is!"

def ai_topic_response (message : String) : String :=
  "**Artificial Intelligence & Machine Learning**\n\nYou asked: \"" ++ pyTake 80 message ++ "...\"\n\n**What is AI?**\nComputers that can learn and make intelligent decisions, like humans!\n\n**Types of AI:**\n\n**Machine Learning:**\n- Computers learn from data\n- Example: Email spam filters\n- No explicit programming needed\n\n**Deep Learning:**\n- Uses neural networks (inspired by brain)\n- Powers image recognition, language translation\n- Needs lots of data to learn\n\n**Applications:**\n- **Vision**: Face recognition, self-driving cars\n- **Language**: Chatbots, translation, voice assistants\n- **Recommendations**: Netflix, Amazon suggestions\n- **Healthcare**: Disease diagnosis\n- **Finance**: Fraud detection\n\n**How It Works:**\n1. Collect data (examples)\n2. Train model (learn patterns)\n3. Test accuracy\n4. Deploy in real world\n\n**Popular Tools:**\n- Python, TensorFlow, PyTorch\n- Jupyter Notebooks for experiments\n\nAI is transforming every industry and creating amazing possibilities!"

def sports_response (message : String) : String :=
  "**Sports** - Competition & Athletics!\n\nYou asked: \"" ++ pyTake 80 message ++ "...\"\n\n**Popular Sports:**\n\n**Team Sports:**\n- **Football/Soccer**: Most popular globally, 11 players\n- **Basketball**: 5 players, high-scoring, NBA\n- **Cricket**: Bat and ball, huge in Asia\n- **Baseball**: American pastime, 9 innings\n\n**Individual Sports:**\n- **Tennis**: Racket sport, Grand Slams\n- **Athletics**: Running, jumping, throwing\n- **Swimming**: Speed in water\n- **Golf**: Precision and strategy\n\n**Olympics:**\n- Summer & Winter games\n- Every 4 years\n- Best athletes worldwide compete\n\n**Benefits:**\n✓ Physical fitness & health\n✓ Teamwork & discipline\n✓ Mental toughness\n✓ Fun & social connections\n\n**Famous Athletes:**\n- Cristiano Ronaldo: Football\n- LeBron James: Basketball\n- Serena Williams: Tennis\n- Usain Bolt: Fastest human (100m)\n\nSports bring people together and promote healthy lifestyles!"

def music_response (message : String) : String :=
  "**Music** - The Universal Language!\n\nYou asked: \"" ++ pyTake 80 message ++ "...\"\n\n**Elements of Music:**\n- **Melody**: The tune you remember\n- **Harmony**: Chords supporting melody\n- **Rhythm**: The beat, timing\n- **Tempo**: Speed (fast/slow)\n\n**Music Genres:**\n- **Classical**: Orchestra, complex compositions\n- **Rock**: Electric guitars, drums, energy\n- **Pop**: Catchy, mainstream, popular\n- **Jazz**: Improvisation, swing\n- **Hip-Hop**: Beats, rap, urban culture\n- **Electronic**: Synthesized, computer-made\n\n**Instruments:**\n- **Strings**: Violin, guitar, piano\n- **Woodwinds**: Flute, clarinet, saxophone\n- **Brass**: Trumpet, trombone\n- **Percussion**: Drums, cymbals\n\n**Famous Composers:**\n- Beethoven: Symphonies (Classical)\n- Mozart: Operas, concertos\n- The Beatles: Rock revolution\n- Michael Jackson: King of Pop\n\n**Benefits:**\n✓ Emotional expression\n✓ Reduces stress\n✓ Improves creativity\n✓ Brings people together\n\nMusic connects us all across cultures and languages!"

def health_response (message : String) : String :=
  "**Health & Wellness**\n\nYou asked: \"" ++ pyTake 80 message ++ "...\"\n\n**Healthy Lifestyle:**\n\n**Nutrition:**\n- Balanced diet: Fruits, vegetables, proteins, grains\n- Drink 8 glasses of water daily\n- Limit sugar, processed foods\n\n**Exercise:**\n- 150 minutes/week moderate activity\n- Cardio: Running, swimming (heart health)\n- Strength: Weight training (muscles)\n- Flexibility: Yoga, stretching\n\n**Sleep:**\n- Adults need 7-9 hours\n- Improves memory, immunity, mood\n- Keep consistent schedule\n\n**Mental Health:**\n- Manage stress: Meditation, hobbies\n- Stay connected: Friends, family\n- Seek help when needed\n\n**Prevention:**\n- Regular doctor checkups\n- Vaccines protect against disease\n- Good hygiene: Wash hands\n- Don\x27t smoke, limit alcohol\n\n**Note**: This is educational information. Always consult healthcare professionals for medical advice!\n\nYour health is your most valuable asset!"

def business_response (message : String) : String :=
  "**Business & Economics**\n\nYou asked: \"" ++ pyTake 80 message ++ "...\"\n\n**Business Fundamentals:**\n\n**Types of Business:**\n- Sole Proprietorship: One owner\n- Partnership: Multiple owners\n- Corporation: Separate legal entity\n- LLC: Limited liability\n\n**Key Concepts:**\n- **Revenue**: Total income\n- **Profit**: Revenue - Expenses\n- **Market**: Where buyers and sellers meet\n- **Competition**: Other businesses in same field\n\n**Economics:**\n- **Supply & Demand**: Determines prices\n- **Inflation**: Prices rising over time\n- **GDP**: Total economic output\n- **Stock Market**: Buy/sell company shares\n\n**Starting a Business:**\n1. Identify a problem to solve\n2. Create a solution (product/service)\n3. Find customers\n4. Manage finances\n5. Scale and grow\n\n**Skills Needed:**\n✓ Leadership\n✓ Financial management\n✓ Marketing\n✓ Problem-solving\n✓ Communication\n\nBusiness drives innovation and economic growth!"

/-- Stop words of the default branch's keyword extraction. -/
def stop_words : List String :=
  ["what", "where", "when", "which", "would", "could", "should", "about", "from", "have", "they", "does"]

/-- The default branch's echoed topic: the first three words of the lowered
message longer than four characters and outside the stop-word list, joined
by spaces; `"your question"` when none remain. -/
def default_topic_phrase (message_lower : String) : String :=
  let keywords := (pySplit message_lower).filter
    (fun w => decide (w.length > 4) && !(stop_words.any (fun sw => sw = w)))
  if keywords = [] then "your question" else String.intercalate " " (keywords.take 3)

def default_response (message_lower : String) : String :=
  let topic := default_topic_phrase message_lower
  "**Great Question!** You\x27re asking about: **" ++ topic ++
    "**\n\nI\x27m Fast Learning AI, and I can help you understand this topic!\n\n**I have comprehensive knowledge in:**\n\n📚 **Education:**\n• Science (Physics, Chemistry, Biology)\n• Mathematics (Algebra, Calculus, Statistics)\n• Technology (Programming, AI, Web Development)\n\n🌍 **World Knowledge:**\n• History & Geography\n• Current Events & Politics\n• Cultures & Languages\n\n🎨 **Arts & Humanities:**\n• Literature & Writing\n• Music & Visual Arts\n• Philosophy & Ethics\n\n💼 **Practical Skills:**\n• Business & Economics\n• Health & Fitness\n• Sports & Recreation\n\n**To give you the BEST answer:**\n1. Be specific about what you want to know\n2. Ask about a particular aspect you\x27re interested in\n3. Let me know your level (beginner, intermediate, advanced)\n\n**Try asking:**\n- \"What is " ++ topic ++ " and how does it work?\"\n- \"Explain " ++ topic ++ " in simple terms\"\n- \"What are the key concepts of " ++ topic ++ "?\"\n- \"Give me examples of " ++ topic ++ "\"\n- \"Why is " ++ topic ++ " important?\"\n\nI\x27m here to help you understand ANYTHING! What specifically would you like to know about **" ++ topic ++ "**?"

/-- `AIEngine._answer_universal_question`.  The `programming` branch's reply
is an f-string whose embedded code sample `f"Hello, {name}!"` contains the
replacement field `{name}` with unescaped braces; no variable `name` is in
scope there, so evaluating that branch raises `NameError: name 'name' is
not defined` instead of returning text.  Every other branch interpolates
only the in-scope `message` / `topic` values and returns its text; the
`usa`, `china`, `japan` and `europe` topics have no branch of their own and
fall to the default reply. -/
def AIEngine.answer_universal_question (message message_lower : String) :
    Except PyError String :=
  match detect_topic message_lower with
  | some "india" => .ok (india_response message)
  | some "programming" => .error (.nameError "name")
  | some "math" => .ok (math_topic_response message)
  | some "physics" => .ok (physics_response message)
  | some "chemistry" => .ok (chemistry_response message)
  | some "biology" => .ok (biology_response message)
  | some "history" => .ok (history_response message)
  | some "geography" => .ok (geography_response message)
  | some "space" => .ok (space_response message)
  | some "ai" => .ok (ai_topic_response message)
  | some "sports" => .ok (sports_response message)
  | some "music" => .ok (music_response message)
  | some "health" => .ok (health_response message)
  | some "business" => .ok (business_response message)
  | _ => .ok (default_response message_lower)

/-- The response text `_generate_rule_based_response` selects, before output
shaping: ordered pattern rules, first matching rule wins — arithmetic, then
greetings, then small talk, then the universal question handler. -/
def AIEngine.rule_based_text (message : String) : Except PyError String :=
  let message_lower := pyLower message
  if AIEngine.is_math_expression message then .ok (AIEngine.calculate_math message)
  else if greetings_list.any (fun g => pyContains message_lower g) then .ok greeting_response
  else if how_are_you_words.any (fun w => pyContains message_lower w) then .ok how_are_you_response
  else if who_are_you_words.any (fun w => pyContains message_lower w) then .ok who_are_you_response
  else AIEngine.answer_universal_question message message_lower

/-! ## `ai_engine.py`: output shaping and the three-tier dispatch -/

/-- A generation result dict: `{content, tokens_used, model}` for
non-streaming calls, `{content, chunks, model}` for streaming ones (the
lazy chunk generator is finite, so it is kept as the list of fragments it
yields). -/
inductive Response
  | nonStreaming (content : String) (tokens_used : Nat) (model : String)
  | streaming (content : String) (chunks : List String) (model : String)
deriving DecidableEq, Repr

def Response.content_of : Response → String
  | .nonStreaming c _ _ => c
  | .streaming c _ _ => c

def Response.chunks_of : Response → List String
  | .nonStreaming _ _ _ => []
  | .streaming _ ch _ => ch

/-- `ai_response.get('tokens_used', 0)`. -/
def Response.tokens_used_of : Response → Nat
  | .nonStreaming _ t _ => t
  | .streaming _ _ _ => 0

/-- The simulated-streaming fragments of tiers 2 and 3: the text's
whitespace-split words, each but the last with one trailing space
re-attached (`yield word + (' ' if i < len(words) - 1 else '')`). -/
def word_chunks (response : String) : List String :=
  let words := pySplit response
  words.enum.map (fun p => p.2 ++ if p.1 < words.length - 1 then " " else "")

/-- `AIEngine._format_response` (tier 3's output shaping). -/
def AIEngine.format_response (response : String) (stream : Bool) : Response :=
  if stream then .streaming response (word_chunks response) "rule-based"
  else .nonStreaming response 0 "rule-based"

/-- `AIEngine._generate_rule_based_response`. -/
def AIEngine.generate_rule_based_response (message : String) (stream : Bool) :
    Except PyError Response :=
  (AIEngine.rule_based_text message).map (fun r => AIEngine.format_response r stream)

/-- The prompt `_generate_local_response` builds: the last five history
turns rendered as "User:"/"AI:" lines, then the current message appended as
one more "User:" line with the "AI:" generation cue. -/
def build_local_prompt (conversation_history : List Message) (message : String) : String :=
  let context := String.join ((lastSlice 5 conversation_history).map fun msg =>
    if msg.role = "user" then "User: " ++ msg.content ++ "\n"
    else if msg.role = "assistant" then "AI: " ++ msg.content ++ "\n"
    else "")
  context ++ "User: " ++ message ++ "\nAI:"

/-- Outcome of one local-model generation call: whether it raised, and the
decoded, prompt-echo-stripped continuation text and output length when it
did not (`do_sample=True` samples, so the text is an input of the model
here, not a function of the prompt). -/
structure LocalOutcome where
  ok : Bool
  text : String
  tokens : Nat
deriving DecidableEq, Repr

/-- The dict a successful `_generate_local_response` returns. -/
def local_response (outcome : LocalOutcome) (stream : Bool) : Response :=
  if stream then .streaming outcome.text (word_chunks outcome.text) "local-model"
  else .nonStreaming outcome.text outcome.tokens "local-model"

/-- Outcome of one hosted-provider call: whether it raised, the completion
text and token usage for a non-streaming call, and the provider-emitted
fragments for a streaming one. -/
structure HostedOutcome where
  ok : Bool
  text : String
  tokens : Nat
  chunks : List String
deriving DecidableEq, Repr

structure ApiMsg where
  role : String
  content : String
deriving DecidableEq, Repr

def system_preamble : String :=
  "You are a helpful, intelligent AI assistant. You provide clear, accurate, and thoughtful responses."

/-- The message list `_generate_openai_response` sends to the provider: the
system preamble plus the last ten history turns.  The current `message`
argument is never appended separately — it reaches the provider only if the
history already contains it.  (The `'role' in msg and 'content' in msg`
guard always holds for turns this program builds, so the slice is mapped
whole.) -/
def openai_messages (conversation_history : List Message) : List ApiMsg :=
  ⟨"system", system_preamble⟩ ::
    (lastSlice 10 conversation_history).map (fun m => ⟨m.role, m.content⟩)

/-- The dict a successful `_generate_openai_response` returns: for a stream,
`content` is empty and the fragments arrive as the provider emits them. -/
def hosted_response (outcome : HostedOutcome) (model : String) (stream : Bool) : Response :=
  if stream then .streaming "" outcome.chunks model
  else .nonStreaming outcome.text outcome.tokens model

/-- The generation tiers. -/
inductive Tier
  | hosted | localModel | ruleBased
deriving DecidableEq, Repr

/-- The engine's configuration after `AIEngine.__init__`: `use_openai` is
set when the credential is configured, and cleared again if the provider
SDK fails to import; the local model attribute exists only when the
credential path was not taken and the model loaded. -/
structure EngineState where
  use_openai : Bool
  has_model : Bool
deriving DecidableEq, Repr

def AIEngine.init (credential_configured sdk_import_ok local_model_loads : Bool) : EngineState :=
  let use := credential_configured && sdk_import_ok
  { use_openai := use, has_model := !use && local_model_loads }

deriving instance DecidableEq for Except

/-- What one `generate_response` call did: the response dict or the
exception that escaped, the tiers attempted in order, the tier that
produced the returned dict (none when the call raised), and the prompt the
local tier built when it was attempted with the model present. -/
structure GenResult where
  resp : Except PyError Response
  attempted : List Tier
  produced : Option Tier
  local_prompt : Option String
deriving DecidableEq, Repr

/-- The shared tail of the fall-through: ending a call in the rule-based
tier (directly or after failures of the earlier tiers). -/
def rule_tier_result (message : String) (stream : Bool) (pre : List Tier)
    (lp : Option String) : GenResult :=
  match AIEngine.rule_based_text message with
  | .ok r =>
    { resp := .ok (AIEngine.format_response r stream)
      attempted := pre ++ [.ruleBased]
      produced := some .ruleBased
      local_prompt := lp }
  | .error e =>
    { resp := .error e
      attempted := pre ++ [.ruleBased]
      produced := none
      local_prompt := lp }

/-- `AIEngine.generate_response`, with the two outer tiers' outcomes
supplied as oracles.  Dispatch: the hosted tier runs iff `use_openai` and
the model name starts with `gpt`; its `except` falls into the local tier
unconditionally; the local tier (whether dispatched directly via
`hasattr(self, 'model')` or reached from the hosted tier's handler) falls
into the rule-based tier on any failure — including the missing-attribute
failure when no local model was loaded.  A `conversation_history` of `none`
models the Python default and becomes the empty history. -/
def AIEngine.generate_response (st : EngineState) (hosted : HostedOutcome)
    (localo : LocalOutcome) (message : String)
    (conversation_history : Option (List Message)) (model : String) (stream : Bool) :
    GenResult :=
  let history := conversation_history.getD []
  if st.use_openai && pyStartsWith model "gpt" then
    if hosted.ok then
      { resp := .ok (hosted_response hosted model stream)
        attempted := [.hosted]
        produced := some .hosted
        local_prompt := none }
    else if st.has_model && localo.ok then
      { resp := .ok (local_response localo stream)
        attempted := [.hosted, .localModel]
        produced := some .localModel
        local_prompt := some (build_local_prompt history message) }
    else
      rule_tier_result message stream [.hosted, .localModel]
        (if st.has_model then some (build_local_prompt history message) else none)
  else if st.has_model then
    if localo.ok then
      { resp := .ok (local_response localo stream)
        attempted := [.localModel]
        produced := some .localModel
        local_prompt := some (build_local_prompt history message) }
    else
      rule_tier_result message stream [.localModel]
        (some (build_local_prompt history message))
  else
    rule_tier_result message stream [] none

/-! ## `app.py`: the HTTP and realtime entry points -/

/-- What the chat handler returns to the HTTP caller. -/
inductive ChatResult
  | payload (session_id : String) (response : String) (model : String)
      (timestamp : String) (tokens_used : Nat)
  | badRequest (error : String)
  | internalError (error : String)
deriving DecidableEq, Repr

/-- The generator invocation a handler performed, when it reached one. -/
structure GenCall where
  message : String
  history : List Message
  model : String
  stream : Bool
deriving DecidableEq, Repr

/-- Result of one `/api/chat` request: the HTTP-level outcome, the manager
state afterwards, and the generator invocation made (if any). -/
structure ChatOutcome where
  result : ChatResult
  mgr : ManagerState
  gen_call : Option GenCall
deriving DecidableEq, Repr

/-- POST `/api/chat` (`app.chat`), with the request fields as the model's
inputs (`data.get` defaults applied: a missing message is `''`, a missing
session id becomes a fresh uuid, a missing model `'gpt-3.5-turbo'`).
`conversation` is a reference to the cached dict, and `add_message` mutates
that same dict, so the `conversation['messages']` list handed to the
generator is the post-append message list; the embedding reads it back from
the post-append state to model the alias. -/
def app.chat (mgr : ManagerState) (st : EngineState) (hosted : HostedOutcome)
    (localo : LocalOutcome) (data_message : String) (data_session_id : Option String)
    (fresh_uuid : String) (data_model : Option String) (now : String) : ChatOutcome :=
  let user_message := data_message
  let session_id := data_session_id.getD fresh_uuid
  let model := data_model.getD "gpt-3.5-turbo"
  if user_message = "" then
    { result := .badRequest "Message is required", mgr := mgr, gen_call := none }
  else
    let r0 := ConversationManager.get_conversation mgr session_id now
    let mgr1 := ConversationManager.add_message r0.2 session_id
      { role := "user", content := user_message, timestamp := now } now
    let history := (ConversationManager.get_conversation mgr1 session_id now).1.messages
    let gen := AIEngine.generate_response st hosted localo user_message (some history) model false
    match gen.resp with
    | .error e =>
      { result := .internalError (pyErrorMessage e)
        mgr := mgr1
        gen_call := some ⟨user_message, history, model, false⟩ }
    | .ok resp =>
      let mgr2 := ConversationManager.add_message mgr1 session_id
        { role := "assistant", content := resp.content_of, timestamp := now, model := some model } now
      { result := .payload session_id resp.content_of model now resp.tokens_used_of
        mgr := mgr2
        gen_call := some ⟨user_message, history, model, false⟩ }

/-- Events the socket handler emits, in order. -/
inductive SocketEvent
  | typing (is_typing : Bool)
  | message_chunk (chunk : String) (session_id : String)
  | message_complete (session_id : String) (timestamp : String)
  | errorEvent (error : String)
deriving DecidableEq, Repr

/-- Result of one `send_message` socket event. -/
structure SocketOutcome where
  events : List SocketEvent
  mgr : ManagerState
  gen_call : Option GenCall
deriving DecidableEq, Repr

/-- The `send_message` socket handler (`app.handle_message`): same append
sequence as the HTTP path but with no message validation, a typing signal
before generation, one `message_chunk` event per fragment, and the
concatenated fragments persisted as the assistant turn; any exception turns
into a single `error` event (after the typing signal already sent). -/
def app.handle_message (mgr : ManagerState) (st : EngineState) (hosted : HostedOutcome)
    (localo : LocalOutcome) (data_message : String) (data_session_id : Option String)
    (fresh_uuid : String) (data_model : Option String) (now : String) : SocketOutcome :=
  let user_message := data_message
  let session_id := data_session_id.getD fresh_uuid
  let model := data_model.getD "gpt-3.5-turbo"
  let r0 := ConversationManager.get_conversation mgr session_id now
  let mgr1 := ConversationManager.add_message r0.2 session_id
    { role := "user", content := user_message, timestamp := now } now
  let history := (ConversationManager.get_conversation mgr1 session_id now).1.messages
  let gen := AIEngine.generate_response st hosted localo user_message (some history) model true
  match gen.resp with
  | .error e =>
    { events := [.typing true, .errorEvent (pyErrorMessage e)]
      mgr := mgr1
      gen_call := some ⟨user_message, history, model, true⟩ }
  | .ok resp =>
    let chunks := resp.chunks_of
    let full_response := String.join chunks
    let mgr2 := ConversationManager.add_message mgr1 session_id
      { role := "assistant", content := full_response, timestamp := now, model := some model } now
    { events := [.typing true] ++ chunks.map (fun ch => .message_chunk ch session_id) ++
        [.typing false, .message_complete session_id now]
      mgr := mgr2
      gen_call := some ⟨user_message, history, model, true⟩ }

/-- Outcome of GET `/api/conversations/<session_id>`. -/
inductive GetConvResult
  | body (c : Conversation)
  | notFound
deriving DecidableEq, Repr

/-- Python truthiness of the conversation dict the manager returns: a dict
is falsy iff empty, and these records always carry six keys. -/
def conversation_is_falsy (_c : Conversation) : Bool := false

/-- GET `/api/conversations/<session_id>` (`app.get_conversation`): fetches
through the manager's get-or-create, then tests `if not conversation`
before answering 404. -/
def app.get_conversation_route (mgr : ManagerState) (sid now : String) :
    GetConvResult × ManagerState :=
  let r := ConversationManager.get_conversation mgr sid now
  (if conversation_is_falsy r.1 then .notFound else .body r.1, r.2)

/-! ## Derived definitions used by the properties -/

/-- Fold of `apply_add`: the conversation record after a sequence of
appends (each with its own timestamp). -/
def apply_all (c : Conversation) : List (Message × String) → Conversation
  | [] => c
  | (m, t) :: rest => apply_all (apply_add c m t) rest

/-- Words rejoined with single spaces. -/
def join_space : List String → String
  | [] => ""
  | [w] => w
  | w :: ws => w ++ " " ++ join_space ws

/-- The whitespace normalization that simulated streaming applies to a
text: its whitespace-split words rejoined by single spaces (leading and
trailing whitespace dropped, interior runs collapsed). -/
def normalize_ws (s : String) : String := join_space (pySplit s)

/-- The chunk sequence, presented recursively: every word but the last
keeps one trailing space. -/
def sep_chunks : List String → List String
  | [] => []
  | [w] => [w]
  | w :: ws => (w ++ " ") :: sep_chunks ws

def SocketEvent.is_error_event : SocketEvent → Bool
  | .errorEvent _ => true
  | _ => false

/-! ## Helper lemmas -/

theorem lookupA_setA_self (k : String) (v : α) (l : List (String × α)) :
    lookupA k (setA k v l) = some v := by
  induction l with
  | nil => simp [setA, lookupA]
  | cons hd tl ih =>
    by_cases h : k = hd.1
    · simp [setA, h, lookupA]
    · simp only [setA]
      rw [if_neg h]
      simp [lookupA, h, ih]

theorem lookupA_setA_ne (k k' : String) (v : α) (l : List (String × α)) (h : k' ≠ k) :
    lookupA k' (setA k v l) = lookupA k' l := by
  induction l with
  | nil => simp [setA, lookupA, h]
  | cons hd tl ih =>
    by_cases hk : k = hd.1
    · subst hk
      simp [setA, lookupA, h, ih]
    · simp only [setA]
      rw [if_neg hk]
      by_cases hk' : k' = hd.1
      · simp [lookupA, hk']
      · simp [lookupA, hk', ih]

theorem filterMap_length_eq (f : α → Option β) (l : List α) :
    (l.filterMap f).length = (l.filter (fun a => (f a).isSome)).length := by
  induction l with
  | nil => rfl
  | cons hd tl ih =>
    cases hf : f hd <;>
      simp [List.filterMap_cons, List.filter_cons, hf, ih]

theorem apply_add_messages (c : Conversation) (m : Message) (t : String) :
    (apply_add c m t).messages = c.messages ++ [m] := rfl

theorem apply_add_title_stable (c : Conversation) (m : Message) (t : String)
    (h : c.messages ≠ []) : (apply_add c m t).title = c.title := by
  have hlen : (c.messages ++ [m]).length ≠ 1 := by
    cases hc : c.messages with
    | nil => exact absurd hc h
    | cons a as => simp
  simp only [apply_add]
  rw [if_neg]
  intro hcon
  exact hlen hcon.1

theorem apply_all_title_stable (ms : List (Message × String)) (c : Conversation)
    (h : c.messages ≠ []) : (apply_all c ms).title = c.title := by
  induction ms generalizing c with
  | nil => rfl
  | cons p rest ih =>
    obtain ⟨m, t⟩ := p
    rw [apply_all, ih (apply_add c m t) (by simp [apply_add_messages]),
      apply_add_title_stable c m t h]

/-- After `add_message`, the session's cache and storage entries both hold
the appended conversation. -/
theorem add_message_lookup (mgr : ManagerState) (sid : String) (m : Message) (now : String) :
    lookupA sid (ConversationManager.add_message mgr sid m now).storage =
      some (apply_add (ConversationManager.get_conversation mgr sid now).1 m now) ∧
    lookupA sid (ConversationManager.add_message mgr sid m now).active_conversations =
      some (apply_add (ConversationManager.get_conversation mgr sid now).1 m now) := by
  unfold ConversationManager.add_message
  exact ⟨lookupA_setA_self .., lookupA_setA_self ..⟩

/-- Reading a conversation back right after `add_message` (the alias the
handlers rely on): the cache hit returns the appended record. -/
theorem get_after_add (mgr : ManagerState) (sid : String) (m : Message) (now now' : String) :
    (ConversationManager.get_conversation
        (ConversationManager.add_message mgr sid m now) sid now').1 =
      apply_add (ConversationManager.get_conversation mgr sid now).1 m now := by
  unfold ConversationManager.get_conversation
  rw [(add_message_lookup mgr sid m now).2]
  rfl

theorem string_ext (a b : String) (h : a.data = b.data) : a = b := by
  cases a; cases b; simp_all

theorem foldl_str_append (l : List String) (a : String) :
    List.foldl (· ++ ·) a l = a ++ String.join l := by
  induction l generalizing a with
  | nil => simp [String.join]
  | cons c t ih =>
    have hj : String.join (c :: t) = c ++ String.join t := by
      show List.foldl (· ++ ·) ("" ++ c) t = _
      rw [ih ("" ++ c)]
      simp
    simp only [List.foldl_cons]
    rw [ih (a ++ c), hj, String.append_assoc]

theorem join_cons (a : String) (l : List String) :
    String.join (a :: l) = a ++ String.join l := by
  show List.foldl (· ++ ·) ("" ++ a) l = _
  rw [foldl_str_append]
  simp

theorem join_append (l₁ l₂ : List String) :
    String.join (l₁ ++ l₂) = String.join l₁ ++ String.join l₂ := by
  induction l₁ with
  | nil => simp [String.join]
  | cons a t ih => rw [List.cons_append, join_cons, join_cons, ih, String.append_assoc]

/-- `word_chunks` computes exactly the recursive chunk sequence. -/
theorem word_chunks_eq_sep_chunks (s : String) :
    word_chunks s = sep_chunks (pySplit s) := by
  unfold word_chunks
  generalize pySplit s = ws
  have key : ∀ (ws : List String) (k L : Nat), k + ws.length = L →
      (ws.enumFrom k).map (fun p => p.2 ++ if p.1 < L - 1 then " " else "") = sep_chunks ws := by
    intro ws
    induction ws with
    | nil => intro k L _; rfl
    | cons w rest ih =>
      intro k L hL
      rw [List.enumFrom_cons, List.map_cons, ih (k + 1) L (by simpa [Nat.add_comm, Nat.add_assoc, Nat.add_left_comm] using hL)]
      cases rest with
      | nil =>
        simp only [List.length_cons, List.length_nil] at hL
        have : ¬ (k < L - 1) := by omega
        simp only [this, if_false, sep_chunks]
        simp
      | cons w2 rest2 =>
        simp only [List.length_cons] at hL
        have : k < L - 1 := by omega
        simp only [this, if_true, sep_chunks]
  have := key ws 0 ws.length (by simp)
  simpa [List.enum] using this

theorem join_sep_chunks (ws : List String) :
    String.join (sep_chunks ws) = join_space ws := by
  induction ws with
  | nil => rfl
  | cons w rest ih =>
    cases rest with
    | nil => simp [sep_chunks, join_space, join_cons, String.join]
    | cons w2 rest2 =>
      rw [show sep_chunks (w :: w2 :: rest2) = (w ++ " ") :: sep_chunks (w2 :: rest2) from rfl,
        join_cons, ih, show join_space (w :: w2 :: rest2) = w ++ " " ++ join_space (w2 :: rest2) from rfl,
        String.append_assoc]

/-- Fragment concatenation computes the whitespace-normalized text. -/
theorem join_word_chunks (s : String) :
    String.join (word_chunks s) = normalize_ws s := by
  rw [word_chunks_eq_sep_chunks, join_sep_chunks, normalize_ws]

theorem firstRun_all (l : List Char) (r : List Char) (h : firstRun l = some r) :
    r.all isAllowedChar = true := by
  induction l with
  | nil => simp [firstRun] at h
  | cons c cs ih =>
    by_cases hc : isAllowedChar c
    · simp only [firstRun, hc, if_true, Option.some_inj] at h
      subst h
      exact List.all_eq_true.mpr (fun x hx => List.mem_takeWhile_imp hx)
    · simp only [firstRun, hc, if_false] at h
      exact ih h

theorem firstRun_none (l : List Char) (h : firstRun l = none) :
    ∀ c ∈ l, isAllowedChar c = false := by
  induction l with
  | nil => intro c hc; simp at hc
  | cons c cs ih =>
    by_cases hc : isAllowedChar c
    · simp [firstRun, hc] at h
    · simp only [firstRun, hc, if_false] at h
      intro d hd
      rcases List.mem_cons.mp hd with rfl | hmem
      · exact Bool.eq_false_iff.mpr hc
      · exact ih h d hmem

theorem pyStrip_all (s : String) (p : Char → Bool) (h : s.data.all p = true) :
    (pyStrip s).data.all p = true := by
  simp only [pyStrip]
  refine List.all_eq_true.mpr (fun x hx => ?_)
  refine List.all_eq_true.mp h x ?_
  simp only [List.mem_reverse] at hx
  have h1 := (List.dropWhile_sublist (l := (s.data.dropWhile isPyWs).reverse) isPyWs).subset hx
  simp only [List.mem_reverse] at h1
  exact (List.dropWhile_sublist (l := s.data) isPyWs).subset h1

theorem join_concat (l : List String) (x : String) :
    String.join (l ++ [x]) = String.join l ++ x := by
  rw [join_append, join_cons]
  simp [String.join]

/-- No allow-listed character is alphabetic, so an allow-listed text can
spell no identifier, attribute name or named call. -/
theorem allowed_char_not_alpha (c : Char) (h : isAllowedChar c = true) :
    c.isAlpha = false := by
  simp only [isAllowedChar, Bool.or_eq_true, beq_iff_eq] at h
  rcases h with ((((((((hdig | hws) | rfl) | rfl) | rfl) | rfl) | rfl) | rfl) | rfl)
  · simp only [Char.isDigit, Bool.and_eq_true, decide_eq_true_eq] at hdig
    obtain ⟨h1, h2⟩ := hdig
    have m1 : 48 ≤ c.val.toBitVec.toNat := h1
    have m2 : c.val.toBitVec.toNat ≤ 57 := h2
    simp only [Char.isAlpha, Char.isUpper, Char.isLower, Bool.or_eq_false_iff,
      Bool.and_eq_false_iff, decide_eq_false_iff_not]
    constructor
    · left
      intro hge
      have m3 : 65 ≤ c.val.toBitVec.toNat := hge
      omega
    · left
      intro hge
      have m3 : 97 ≤ c.val.toBitVec.toNat := hge
      omega
  · simp only [isPyWs, Bool.or_eq_true, beq_iff_eq] at hws
    rcases hws with ((((rfl | rfl) | rfl) | rfl) | rfl) | rfl <;> decide
  all_goals decide

theorem firstRun_none_of_all (l : List Char) (h : l.any isAllowedChar = false) :
    firstRun l = none := by
  induction l with
  | nil => rfl
  | cons c cs ih =>
    simp only [List.any_cons, Bool.or_eq_false_iff] at h
    simp [firstRun, h.1, ih h.2]

theorem lastSlice_concat (n : Nat) (hn : 1 ≤ n) (h : List α) (x : α) :
    lastSlice n (h ++ [x]) = h.drop ((h ++ [x]).length - n) ++ [x] := by
  unfold lastSlice
  refine List.drop_append_of_le_length ?_
  simp only [List.length_append, List.length_cons, List.length_nil]
  omega

/-- Getting a session twice: the second get returns the same conversation
(cache hit after any first get). -/
theorem get_get (mgr : ManagerState) (sid now now' : String) :
    (ConversationManager.get_conversation
        (ConversationManager.get_conversation mgr sid now).2 sid now').1 =
      (ConversationManager.get_conversation mgr sid now).1 := by
  unfold ConversationManager.get_conversation
  cases hc : lookupA sid mgr.active_conversations with
  | some c => simp [hc]
  | none =>
    cases hs : lookupA sid mgr.storage with
    | some c => simp [hc, hs, lookupA_setA_self]
    | none => simp [hc, hs, lookupA_setA_self]

theorem rule_tier_attempted (msg : String) (stream : Bool) (pre : List Tier)
    (lp : Option String) :
    (rule_tier_result msg stream pre lp).attempted = pre ++ [Tier.ruleBased] := by
  cases h : AIEngine.rule_based_text msg <;> simp [rule_tier_result, h]

theorem rule_tier_produced (msg : String) (stream : Bool) (pre : List Tier)
    (lp : Option String) :
    (rule_tier_result msg stream pre lp).produced = none ∨
      (rule_tier_result msg stream pre lp).produced = some Tier.ruleBased := by
  cases h : AIEngine.rule_based_text msg <;> simp [rule_tier_result, h]

/-! ## The claims -/

set_option maxRecDepth 1000000
set_option maxHeartbeats 2000000

/-- C1 (code behaviour at the failing input): the deterministic fallback
tier is not unconditionally success-returning — on the message `"python"`
(routed to the universal handler's `programming` branch) it raises
`NameError` for both streaming and non-streaming calls, and the end-to-end
HTTP request then fails with a 500-equivalent because of response
generation. -/
theorem c1_fallback_raises_on_python :
    AIEngine.generate_rule_based_response "python" false = .error (.nameError "name") ∧
    AIEngine.generate_rule_based_response "python" true = .error (.nameError "name") ∧
    (app.chat ManagerState.empty ⟨false, false⟩ ⟨false, "", 0, []⟩ ⟨false, "", 0⟩
        "python" (some "s1") "u1" none "T0").result =
      .internalError "name \x27name\x27 is not defined" :=
  ⟨by decide, by decide, by decide⟩

/-- C2 counterexample: the messages `"add"` and `"'add'"` are both routed
to arithmetic handling (each contains the keyword `add`), yet the text
handed to `eval` is the raw message, not filtered to the character
allow-list: `"add"` is a bare identifier, and `"'add'"` is a string
literal that Python's `eval` evaluates successfully — to the string
`'add'` — so the evaluation step does not reject every non-numeric input
either. -/
theorem c2_unfiltered_eval_counterexample :
    AIEngine.is_math_expression "add" = true ∧
    extract_expression "add" = "add" ∧
    ("add".data.all isAllowedChar) = false ∧
    AIEngine.is_math_expression "\x27add\x27" = true ∧
    extract_expression "\x27add\x27" = "\x27add\x27" ∧
    pyEval (extract_expression "\x27add\x27") = .outsideFragment :=
  ⟨by decide, by decide, by decide, by decide, by decide, by decide⟩

/-- C2 amended: the allow-list filtering holds exactly when the
`=`-stripped message text contains at least one allow-listed character:
the evaluated expression text is then the first maximal allow-listed run —
every character of it a digit, whitespace or one of `+-*/().`, and none of
them alphabetic, so that text can spell no identifier, attribute access or
named call; but a message routed via arithmetic keywords whose text
contains no allow-listed character at all is handed to `eval` raw and
unfiltered, and such a text can still evaluate successfully when it is a
non-numeric literal (e.g. the quoted string `"'add'"`), so the original
"only arithmetic on numeric literals is ever evaluated" policy does not
hold on that path. -/
theorem c2_arithmetic_filter (m : String) (_h : AIEngine.is_math_expression m = true) :
    ((pyStrip (pyRemoveChar '=' m)).data.any isAllowedChar = true →
      (extract_expression m).data.all isAllowedChar = true ∧
      (extract_expression m).data.all (fun c => !c.isAlpha) = true) ∧
    ((pyStrip (pyRemoveChar '=' m)).data.any isAllowedChar = false →
      extract_expression m = pyStrip (pyRemoveChar '=' m)) := by
  have hexp : extract_expression m =
      match firstRun (pyStrip (pyRemoveChar '=' m)).data with
      | some run => pyStrip (String.mk run)
      | none => pyStrip (pyRemoveChar '=' m) := rfl
  constructor
  · intro hany
    cases hfr : firstRun (pyStrip (pyRemoveChar '=' m)).data with
    | none =>
      exfalso
      obtain ⟨c, hmem, hc⟩ := List.any_eq_true.mp hany
      exact absurd (firstRun_none _ hfr c hmem) (by simp [hc])
    | some run =>
      rw [hexp, hfr]
      have hall := pyStrip_all (String.mk run) _ (firstRun_all _ _ hfr)
      refine ⟨hall, List.all_eq_true.mpr (fun c hc => ?_)⟩
      have hc2 := List.all_eq_true.mp hall c hc
      simp [allowed_char_not_alpha c hc2]
  · intro hnone
    rw [hexp, firstRun_none_of_all _ hnone]

theorem c2_arithmetic_filter_witness :
    AIEngine.is_math_expression "2+2" = true ∧
    (((pyStrip (pyRemoveChar '=' "2+2")).data.any isAllowedChar = true →
      (extract_expression "2+2").data.all isAllowedChar = true ∧
      (extract_expression "2+2").data.all (fun c => !c.isAlpha) = true) ∧
    ((pyStrip (pyRemoveChar '=' "2+2")).data.any isAllowedChar = false →
      extract_expression "2+2" = pyStrip (pyRemoveChar '=' "2+2"))) :=
  ⟨by decide, c2_arithmetic_filter "2+2" (by decide)⟩

/-- C4 counterexample: for the fallback tier on the input `"hello"`, the
non-streaming content is the greeting text (which contains newlines and so
is not whitespace-normalized), while the streamed fragments concatenate to
the normalized form — not to the content character for character. -/
theorem c4_stream_concat_counterexample :
    AIEngine.generate_rule_based_response "hello" false =
      .ok (.nonStreaming greeting_response 0 "rule-based") ∧
    AIEngine.generate_rule_based_response "hello" true =
      .ok (.streaming greeting_response (word_chunks greeting_response) "rule-based") ∧
    String.join (word_chunks greeting_response) ≠ greeting_response :=
  ⟨by decide, by decide, by decide⟩

/-- C4 amended: for the local-model and deterministic tiers, the
concatenation of all yielded fragments equals the whitespace-normalized
content — the content's whitespace-split words rejoined by single spaces,
leading/trailing whitespace dropped — rather than the content character for
character (the two agree exactly when the content is already in that
normalized form; each non-final fragment does carry its trailing space, but
a newline, a doubled space or outer whitespace in the content is not
reconstructed). -/
theorem c4_stream_concat_normalized (s : String) (lo : LocalOutcome) (r : String) :
    String.join (AIEngine.format_response r true).chunks_of = normalize_ws r ∧
    String.join (local_response lo true).chunks_of = normalize_ws lo.text ∧
    String.join (word_chunks s) = normalize_ws s := by
  refine ⟨?_, ?_, join_word_chunks s⟩
  · show String.join (word_chunks r) = _
    exact join_word_chunks r
  · show String.join (word_chunks lo.text) = _
    exact join_word_chunks lo.text

/-- C5 (code behaviour at the failing input): requesting an unknown session
id through the GET conversation route answers with a freshly created empty
conversation — never the 404 branch, which is unreachable — and persists a
new record for the unknown id. -/
theorem c5_get_route_creates :
    (app.get_conversation_route ManagerState.empty "s1" "T0").1 =
      .body (new_conversation "s1" "T0") ∧
    lookupA "s1" (app.get_conversation_route ManagerState.empty "s1" "T0").2.storage =
      some (new_conversation "s1" "T0") ∧
    ∀ mgr sid now, (app.get_conversation_route mgr sid now).1 ≠ .notFound := by
  refine ⟨by decide, by decide, ?_⟩
  intro mgr sid now
  simp [app.get_conversation_route, conversation_is_falsy]

/-- C6 counterexample: exporting a session id with no stored conversation
is not a pure read — it creates and persists a new record for that id. -/
theorem c6_export_mutates_counterexample :
    lookupA "s1" (ConversationManager.export_conversation
        ManagerState.empty "s1" "json" "T0").2.storage =
      some (new_conversation "s1" "T0") ∧
    (ConversationManager.export_conversation ManagerState.empty "s1" "json" "T0").2 ≠
      ManagerState.empty :=
  ⟨by decide, by decide⟩

/-- C6 amended: export never rewrites an existing record — the stored
records of all other sessions are unchanged, and when the exported session
is cached or already stored, durable storage is left exactly as it was
(only the in-memory cache may gain the loaded entry); but exporting a
session with no record creates and persists a fresh empty conversation
under that id. -/
theorem c6_export_frame (mgr : ManagerState) (sid fmt now : String) :
    (∀ sid', sid' ≠ sid →
      lookupA sid' (ConversationManager.export_conversation mgr sid fmt now).2.storage =
        lookupA sid' mgr.storage) ∧
    (((lookupA sid mgr.active_conversations).isSome ∨ (lookupA sid mgr.storage).isSome) →
      (ConversationManager.export_conversation mgr sid fmt now).2.storage = mgr.storage) ∧
    ((lookupA sid mgr.active_conversations = none ∧ lookupA sid mgr.storage = none) →
      (ConversationManager.export_conversation mgr sid fmt now).2.storage =
        setA sid (new_conversation sid now) mgr.storage) := by
  have hexp : (ConversationManager.export_conversation mgr sid fmt now).2 =
      (ConversationManager.get_conversation mgr sid now).2 := rfl
  rw [hexp]
  unfold ConversationManager.get_conversation
  cases hc : lookupA sid mgr.active_conversations with
  | some c => simp [hc]
  | none =>
    cases hs : lookupA sid mgr.storage with
    | some c => simp [hc, hs]
    | none =>
      refine ⟨fun sid' hne => lookupA_setA_ne sid sid' _ _ hne, ?_, fun _ => rfl⟩
      simp [hc, hs]

/-- C7 (code behaviour at the failing input): an empty message through the
HTTP path fails with a 400 before any store access and appends nothing;
but the realtime path performs no validation — it appends an empty user
turn and a generated assistant turn to the conversation and completes with
no error event. -/
theorem c7_empty_message_paths :
    app.chat ManagerState.empty ⟨false, false⟩ ⟨false, "", 0, []⟩ ⟨false, "", 0⟩
        "" none "u1" none "T0" =
      ⟨.badRequest "Message is required", ManagerState.empty, none⟩ ∧
    ((lookupA "u1" (app.handle_message ManagerState.empty ⟨false, false⟩ ⟨false, "", 0, []⟩
        ⟨false, "", 0⟩ "" none "u1" none "T0").mgr.storage).map
      (fun c => c.messages.map Message.role)) = some ["user", "assistant"] ∧
    ((lookupA "u1" (app.handle_message ManagerState.empty ⟨false, false⟩ ⟨false, "", 0, []⟩
        ⟨false, "", 0⟩ "" none "u1" none "T0").mgr.storage).map
      (fun c => c.messages.head?.map Message.content)) = some (some "") ∧
    (app.handle_message ManagerState.empty ⟨false, false⟩ ⟨false, "", 0, []⟩
        ⟨false, "", 0⟩ "" none "u1" none "T0").events.all
      (fun e => !e.is_error_event) = true :=
  ⟨by decide, by decide, by decide, by decide⟩

/-- C8: the title is derived exactly once, from the first user-role
message — its leading 50 characters with an ellipsis appended when the
content exceeds 50 characters — and later appends never recompute it; a
conversation whose first append is assistant-role keeps the default title
forever.  The second conjunct bridges the per-append update `apply_add` to
what `add_message` actually stores. -/
theorem c8_title_derivation (sid t0 : String) (ms : List (Message × String))
    (mgr : ManagerState) (m : Message) (now : String) :
    ((apply_all (new_conversation sid t0) ms).title =
      match ms with
      | [] => "New Conversation"
      | (m0, _) :: _ =>
        if m0.role = "user" then title_of m0.content else "New Conversation") ∧
    lookupA sid (ConversationManager.add_message mgr sid m now).storage =
      some (apply_add (ConversationManager.get_conversation mgr sid now).1 m now) := by
  refine ⟨?_, (add_message_lookup mgr sid m now).1⟩
  cases ms with
  | nil => rfl
  | cons p rest =>
    obtain ⟨m0, t1⟩ := p
    rw [show apply_all (new_conversation sid t0) ((m0, t1) :: rest) =
        apply_all (apply_add (new_conversation sid t0) m0 t1) rest from rfl,
      apply_all_title_stable rest _ (by simp [apply_add_messages])]
    by_cases hr : m0.role = "user" <;>
      simp [apply_add, new_conversation, hr]

/-- C9: the conversation listing has one metadata entry per parseable
`.json` record of the storage directory, is sorted by last-updated
timestamp descending (most recent first), and a record that fails to parse
is skipped while every other record is still listed. -/
theorem c9_list_metadata (dir : List (String × Option Conversation)) :
    List.Sorted metaDesc (ConversationManager.get_all_conversations dir) ∧
    (ConversationManager.get_all_conversations dir).length =
      (dir.filter (fun e => pyEndsWith e.1 ".json" && e.2.isSome)).length ∧
    ∀ fn c, (fn, some c) ∈ dir → pyEndsWith fn ".json" = true →
      meta_of c ∈ ConversationManager.get_all_conversations dir := by
  unfold ConversationManager.get_all_conversations
  refine ⟨List.sorted_insertionSort _ _, ?_, ?_⟩
  · rw [(List.perm_insertionSort _ _).length_eq, filterMap_length_eq]
    congr 1
    apply List.filter_congr
    intro e _
    by_cases hend : pyEndsWith e.1 ".json" <;>
      cases he : e.2 <;> simp [hend, he]
  · intro fn c hmem hend
    rw [(List.perm_insertionSort _ _).mem_iff]
    exact List.mem_filterMap.mpr ⟨(fn, some c), hmem, by simp [hend]⟩

/-- C3: the three tiers are attempted in strict order with fall-through on
failure and never fall back once a tier has produced a result: the hosted
tier is attempted iff a provider credential is configured (`use_openai`)
and the requested model name is of the `gpt` family; on any hosted error
the call falls through to the local tier; on any local failure (including
the missing-model attribute failure) it falls through to the deterministic
tier; the produced tier is always the last one attempted, and a tier
produces the result only when its own call succeeded. -/
theorem c3_tier_dispatch (st : EngineState) (ho : HostedOutcome) (lo : LocalOutcome)
    (message : String) (hist : Option (List Message)) (model : String) (stream : Bool) :
    (Tier.hosted ∈ (AIEngine.generate_response st ho lo message hist model stream).attempted ↔
      (st.use_openai && pyStartsWith model "gpt") = true) ∧
    (AIEngine.generate_response st ho lo message hist model stream).attempted.Sublist
      [Tier.hosted, Tier.localModel, Tier.ruleBased] ∧
    (AIEngine.generate_response st ho lo message hist model stream).attempted ≠ [] ∧
    ((Tier.hosted ∈ (AIEngine.generate_response st ho lo message hist model stream).attempted ∧
        ho.ok = false) →
      Tier.localModel ∈ (AIEngine.generate_response st ho lo message hist model stream).attempted) ∧
    ((Tier.localModel ∈ (AIEngine.generate_response st ho lo message hist model stream).attempted ∧
        (st.has_model && lo.ok) = false) →
      Tier.ruleBased ∈ (AIEngine.generate_response st ho lo message hist model stream).attempted) ∧
    (∀ t, (AIEngine.generate_response st ho lo message hist model stream).produced = some t →
      (AIEngine.generate_response st ho lo message hist model stream).attempted.getLast? =
        some t) ∧
    ((AIEngine.generate_response st ho lo message hist model stream).produced =
        some Tier.hosted → ho.ok = true) ∧
    ((AIEngine.generate_response st ho lo message hist model stream).produced =
        some Tier.localModel → (st.has_model && lo.ok) = true) := by
  obtain ⟨uo, hm⟩ := st
  unfold AIEngine.generate_response
  cases hgpt : uo && pyStartsWith model "gpt" <;>
    cases hok : ho.ok <;>
      cases hlo : lo.ok <;>
        cases hhm : hm <;>
          rcases rule_tier_produced message stream [Tier.hosted, Tier.localModel]
              (if hm = true then some (build_local_prompt (hist.getD []) message) else none)
            with hp1 | hp1 <;>
          rcases rule_tier_produced message stream [Tier.localModel]
              (some (build_local_prompt (hist.getD []) message)) with hp2 | hp2 <;>
          rcases rule_tier_produced message stream [] none with hp3 | hp3 <;>
        simp_all [rule_tier_attempted]

theorem chat_gen_call_eq (mgr : ManagerState) (st : EngineState) (ho : HostedOutcome)
    (lo : LocalOutcome) (m sid uuid : String) (mo : Option String) (now : String)
    (hm : m ≠ "") :
    (app.chat mgr st ho lo m (some sid) uuid mo now).gen_call =
      some ⟨m, (ConversationManager.get_conversation
          (ConversationManager.add_message
            (ConversationManager.get_conversation mgr sid now).2 sid
            { role := "user", content := m, timestamp := now } now) sid now).1.messages,
        mo.getD "gpt-3.5-turbo", false⟩ := by
  unfold app.chat
  rw [if_neg hm]
  cases hresp : (AIEngine.generate_response st ho lo m
      (some (ConversationManager.get_conversation
        (ConversationManager.add_message
          (ConversationManager.get_conversation mgr sid now).2 sid
          { role := "user", content := m, timestamp := now } now) sid now).1.messages)
      (mo.getD "gpt-3.5-turbo") false).resp <;> simp [hresp]

theorem socket_gen_call_eq (mgr : ManagerState) (st : EngineState) (ho : HostedOutcome)
    (lo : LocalOutcome) (m sid uuid : String) (mo : Option String) (now : String) :
    (app.handle_message mgr st ho lo m (some sid) uuid mo now).gen_call =
      some ⟨m, (ConversationManager.get_conversation
          (ConversationManager.add_message
            (ConversationManager.get_conversation mgr sid now).2 sid
            { role := "user", content := m, timestamp := now } now) sid now).1.messages,
        mo.getD "gpt-3.5-turbo", true⟩ := by
  unfold app.handle_message
  cases hresp : (AIEngine.generate_response st ho lo m
      (some (ConversationManager.get_conversation
        (ConversationManager.add_message
          (ConversationManager.get_conversation mgr sid now).2 sid
          { role := "user", content := m, timestamp := now } now) sid now).1.messages)
      (mo.getD "gpt-3.5-turbo") true).resp <;> simp [hresp]

/-- C10: in both the HTTP and realtime paths the user turn is appended
before the generator is invoked with that same conversation's (aliased)
message list, so the history handed to the generator already ends with the
current message.  Consequently the local tier's prompt contains the current
message twice — once as the last line of the last-5 history context and
once as the appended current "User:" line — while the hosted tier's message
list carries the current message only through the history (as its last
entry), never as a separately appended message (`openai_messages` does not
even take the current message as an input). -/
theorem c10_history_alias (mgr : ManagerState) (st : EngineState) (ho : HostedOutcome)
    (lo : LocalOutcome) (m sid uuid : String) (mo : Option String) (now : String)
    (hm : m ≠ "") :
    ∃ call : GenCall,
      (app.chat mgr st ho lo m (some sid) uuid mo now).gen_call = some call ∧
      (app.handle_message mgr st ho lo m (some sid) uuid mo now).gen_call =
        some { call with stream := true } ∧
      call.message = m ∧
      call.stream = false ∧
      call.history = (ConversationManager.get_conversation mgr sid now).1.messages ++
        [{ role := "user", content := m, timestamp := now }] ∧
      call.history.getLast? = some { role := "user", content := m, timestamp := now } ∧
      (∃ pre, build_local_prompt call.history m =
        pre ++ "User: " ++ m ++ "\n" ++ "User: " ++ m ++ "\nAI:") ∧
      (openai_messages call.history).getLast? = some ⟨"user", m⟩ := by
  have h1 := get_after_add (ConversationManager.get_conversation mgr sid now).2 sid
    { role := "user", content := m, timestamp := now } now now
  have h2 := get_get mgr sid now now
  have hH : (ConversationManager.get_conversation
      (ConversationManager.add_message
        (ConversationManager.get_conversation mgr sid now).2 sid
        { role := "user", content := m, timestamp := now } now) sid now).1.messages =
      (ConversationManager.get_conversation mgr sid now).1.messages ++
        [{ role := "user", content := m, timestamp := now }] := by
    rw [h1, h2, apply_add_messages]
  refine ⟨⟨m, (ConversationManager.get_conversation
      (ConversationManager.add_message
        (ConversationManager.get_conversation mgr sid now).2 sid
        { role := "user", content := m, timestamp := now } now) sid now).1.messages,
      mo.getD "gpt-3.5-turbo", false⟩,
    chat_gen_call_eq mgr st ho lo m sid uuid mo now hm,
    socket_gen_call_eq mgr st ho lo m sid uuid mo now,
    rfl, rfl, hH, ?_, ?_, ?_⟩
  · rw [hH]
    exact List.getLast?_concat _
  · rw [hH]
    unfold build_local_prompt
    rw [lastSlice_concat 5 (by omega) _ _, List.map_append, join_append]
    refine ⟨String.join (((ConversationManager.get_conversation mgr sid now).1.messages.drop
      (((ConversationManager.get_conversation mgr sid now).1.messages ++
        [({ role := "user", content := m, timestamp := now } : Message)]).length - 5)).map
      (fun msg => if msg.role = "user" then "User: " ++ msg.content ++ "\n"
        else if msg.role = "assistant" then "AI: " ++ msg.content ++ "\n" else "")), ?_⟩
    simp [String.join, String.append_assoc]
  · rw [hH]
    unfold openai_messages
    rw [lastSlice_concat 10 (by omega) _ _, List.map_append]
    simp only [List.map_cons, List.map_nil]
    rw [show (⟨"system", system_preamble⟩ ::
        (((ConversationManager.get_conversation mgr sid now).1.messages.drop
          (((ConversationManager.get_conversation mgr sid now).1.messages ++
            [({ role := "user", content := m, timestamp := now } : Message)]).length - 10)).map
          (fun msg => (⟨msg.role, msg.content⟩ : ApiMsg)) ++ [⟨"user", m⟩])) =
      ((⟨"system", system_preamble⟩ ::
        ((ConversationManager.get_conversation mgr sid now).1.messages.drop
          (((ConversationManager.get_conversation mgr sid now).1.messages ++
            [({ role := "user", content := m, timestamp := now } : Message)]).length - 10)).map
          (fun msg => (⟨msg.role, msg.content⟩ : ApiMsg))) ++ [⟨"user", m⟩]) from rfl]
    exact List.getLast?_concat _

theorem c10_history_alias_witness :
    ("hi" : String) ≠ "" ∧
    ∃ call : GenCall,
      (app.chat ManagerState.empty ⟨false, false⟩ ⟨false, "", 0, []⟩ ⟨false, "", 0⟩
          "hi" (some "s1") "u1" none "T0").gen_call = some call ∧
      (app.handle_message ManagerState.empty ⟨false, false⟩ ⟨false, "", 0, []⟩ ⟨false, "", 0⟩
          "hi" (some "s1") "u1" none "T0").gen_call = some { call with stream := true } ∧
      call.message = "hi" ∧
      call.stream = false ∧
      call.history =
        (ConversationManager.get_conversation ManagerState.empty "s1" "T0").1.messages ++
          [{ role := "user", content := "hi", timestamp := "T0" }] ∧
      call.history.getLast? = some { role := "user", content := "hi", timestamp := "T0" } ∧
      (∃ pre, build_local_prompt call.history "hi" =
        pre ++ "User: " ++ "hi" ++ "\n" ++ "User: " ++ "hi" ++ "\nAI:") ∧
      (openai_messages call.history).getLast? = some ⟨"user", "hi"⟩ :=
  ⟨by decide, c10_history_alias ManagerState.empty ⟨false, false⟩ ⟨false, "", 0, []⟩
    ⟨false, "", 0⟩ "hi" "s1" "u1" none "T0" (by decide)⟩
